import Mathlib

/-!
Verification development for the pi_rc radio-control vehicle program.

The Python sources are shallowly embedded: floats are modelled as rationals
(`ℚ`), Python's `int(x)` truncation as `pyInt`, and the stateful actuator
classes as explicit state-passing functions.  Each definition mirrors one
function or class of the repository; the file ends with theorems settling
the specification claims.
-/

namespace PiRC

/-- Python's `int(x)` applied to a float: truncation toward zero. -/
def pyInt (q : ℚ) : ℤ := if 0 ≤ q then ⌊q⌋ else -⌊-q⌋

/-! ## controller/speed.py — `Speed(IntEnum)` -/

def Speed.Zero : ℚ := 0
def Speed.Slow : ℚ := 1
def Speed.Middle : ℚ := 2
def Speed.High : ℚ := 3
def Speed.Max : ℚ := 4

/-! ## controller/analogaxis.py — thresholds, rounded values, converters -/

/-- `AnalogStickThreshold` dataclass with its default field values. -/
structure AnalogStickThreshold where
  zero : ℚ := 2/10
  low : ℚ := 4/10
  middle : ℚ := 6/10
  high : ℚ := 8/10
deriving DecidableEq

/-- `AnalogStickRoundedValue` dataclass: default levels are `Speed` 0..4. -/
structure AnalogStickRoundedValue where
  zero : ℤ := 0
  low : ℤ := 1
  middle : ℤ := 2
  high : ℤ := 3
  max : ℤ := 4
deriving DecidableEq

/-- `TriggerThreshold` dataclass with its default field values. -/
structure TriggerThreshold where
  zero : ℚ := 2/10
  low : ℚ := 65/100
  middle : ℚ := 11/10
  high : ℚ := 16/10
deriving DecidableEq

/-- `TriggerRoundedValue` dataclass: default levels are `Speed` 0..4. -/
structure TriggerRoundedValue where
  zero : ℤ := 0
  low : ℤ := 1
  middle : ℤ := 2
  high : ℤ := 3
  max : ℤ := 4
deriving DecidableEq

/-- `AxisInput` dataclass from controller/controllerdata.py.
`value` holds the raw float for the simple converter and the quantized
level (an integer cast to float) for the Xbox converter. -/
structure AxisInput where
  positive : Bool := true
  value : ℚ := 0
deriving DecidableEq

/-- `AnalogAxisConverter._is_positive`. -/
def is_positive (value : ℚ) : Bool := decide (0 ≤ value)

/-- `AnalogAxisConverter._round_stick_value`. -/
def round_stick_value (t : AnalogStickThreshold) (r : AnalogStickRoundedValue)
    (value : ℚ) : ℤ :=
  let abs_value := |value|
  if abs_value < t.zero then r.zero
  else if abs_value < t.low then r.low
  else if abs_value < t.middle then r.middle
  else if abs_value < t.high then r.high
  else r.max

/-- `AnalogAxisConverter._round_trigger_value`. -/
def round_trigger_value (t : TriggerThreshold) (r : TriggerRoundedValue)
    (value : ℚ) : ℤ :=
  if value < t.zero then r.zero
  else if value < t.low then r.low
  else if value < t.middle then r.middle
  else if value < t.high then r.high
  else r.max

/-- Stick quantization with the default tables, as instantiated by
`XboxAnalogAxisConverter.__init__`. -/
def stick_level (value : ℚ) : ℤ := round_stick_value {} {} value

/-- Trigger quantization with the default tables, as instantiated by
`XboxAnalogAxisConverter.__init__`. -/
def trigger_level (value : ℚ) : ℤ := round_trigger_value {} {} value

/-! ## controller/xboxdefs.py — index constants -/

def XboxControllerButton.Back : ℕ := 10
def XboxControllerButton.Start : ℕ := 11
def XboxControllerButton.RightStick : ℕ := 14

def XboxControllerStick.LeftX : ℕ := 0
def XboxControllerStick.LeftY : ℕ := 1
def XboxControllerStick.RightX : ℕ := 2
def XboxControllerStick.RightY : ℕ := 3

def XboxControllerTrigger.Left : ℕ := 5
def XboxControllerTrigger.Right : ℕ := 4

/-- `list(map(lambda x: x.value, XboxControllerTrigger))`: the trigger axis
index set, in enum definition order (Left = 5, Right = 4). -/
def xboxTriggerIndices : List ℕ :=
  [XboxControllerTrigger.Left, XboxControllerTrigger.Right]

/-- `XboxAnalogAxisConverter.convert`. -/
def xbox_convert (index : ℕ) (value : ℚ) : AxisInput :=
  if index ∈ xboxTriggerIndices then
    { positive := true, value := (trigger_level (1 + value) : ℚ) }
  else
    { positive := is_positive value, value := (stick_level value : ℚ) }

/-! ## controller/controllerdata.py — snapshots, events, queue -/

/-- `ControllerEventType(Enum)`. -/
inductive ControllerEventType where
  | Empty
  | Connected
  | Disconnected
  | InputChanged
  | Quit
deriving DecidableEq

/-- `ControllerInput` dataclass: full quantized snapshot of one poll cycle.
Hat states are pairs of ints; axes are `AxisInput`s.  Python's dataclass
`==` compares the three lists element by element, which is exactly `=` on
this structure. -/
structure ControllerInput where
  buttons : List Bool := []
  hats : List (ℤ × ℤ) := []
  axes : List AxisInput := []
deriving DecidableEq

/-- `ControllerData` dataclass: one event together with its snapshot. -/
structure ControllerData where
  event : ControllerEventType := ControllerEventType.Empty
  controller_input : ControllerInput := {}
deriving DecidableEq

/-! ## controller/controller.py — poll cycle and reconnection -/

/-- One change-detection step of `Controller._run` (lines 219-241): the
freshly assembled snapshot `current` is compared by value with the last
dispatched snapshot `last`; on inequality an `InputChanged` event carrying
`current` is enqueued and the retained snapshot becomes `current`.
Returns (events enqueued this cycle, retained snapshot after the cycle). -/
def poll_cycle (last current : ControllerInput) :
    List ControllerData × ControllerInput :=
  if last = current then ([], last)
  else ([{ event := ControllerEventType.InputChanged, controller_input := current }],
        current)

/-- A pygame event as seen by `Controller._search_controller`: either a
`JOYDEVICEADDED` notification (after which the joystick list holds the
named devices) or any other event. -/
inductive PygameEvent where
  | joyDeviceAdded (devices : List String)
  | otherEvent
deriving DecidableEq

/-- `Controller._search_controller` restricted to the bounded window: it
processes the device events observed before the initiator's timed join
returns, connecting (and emitting `Connected`, as `_try_connect_controller`
does) at the first `JOYDEVICEADDED` whose device list holds the expected
controller name.  Returns (connected flag, events emitted). -/
def search_controller (target : String) :
    List PygameEvent → Bool × List ControllerEventType
  | [] => (false, [])
  | PygameEvent.joyDeviceAdded devices :: rest =>
      if target ∈ devices then (true, [ControllerEventType.Connected])
      else search_controller target rest
  | PygameEvent.otherEvent :: rest => search_controller target rest

/-- `Controller._reconnect_controller`: run the bounded search over the
events observed within the connection timeout; if it did not connect,
`quit()` is invoked, which drains the queue and enqueues a final `Quit`.
Returns the events the procedure leaves in the queue. -/
def reconnect_controller (target : String) (observed : List PygameEvent) :
    List ControllerEventType :=
  let r := search_controller target observed
  if r.1 then r.2 else r.2 ++ [ControllerEventType.Quit]

/-! ## controller/xboxdefs.py — `XboxControllerInputHelper` accessors -/

def buttonAt (input : ControllerInput) (i : ℕ) : Bool := input.buttons.getD i false

def axisAt (input : ControllerInput) (i : ℕ) : AxisInput := input.axes.getD i {}

def ButtonBack (input : ControllerInput) : Bool :=
  buttonAt input XboxControllerButton.Back

def ButtonStart (input : ControllerInput) : Bool :=
  buttonAt input XboxControllerButton.Start

def ButtonStickRight (input : ControllerInput) : Bool :=
  buttonAt input XboxControllerButton.RightStick

def HatX (input : ControllerInput) : ℤ := (input.hats.getD 0 (0, 0)).1

def HatY (input : ControllerInput) : ℤ := (input.hats.getD 0 (0, 0)).2

def StickLeftX (input : ControllerInput) : AxisInput :=
  axisAt input XboxControllerStick.LeftX

def StickLeftY (input : ControllerInput) : AxisInput :=
  axisAt input XboxControllerStick.LeftY

def StickRightX (input : ControllerInput) : AxisInput :=
  axisAt input XboxControllerStick.RightX

def StickRightY (input : ControllerInput) : AxisInput :=
  axisAt input XboxControllerStick.RightY

def TriggerLeft (input : ControllerInput) : AxisInput :=
  axisAt input XboxControllerTrigger.Left

def TriggerRight (input : ControllerInput) : AxisInput :=
  axisAt input XboxControllerTrigger.Right

/-- A snapshot the Python dispatch loop can index without raising and whose
axis values are quantized levels, i.e. what the Xbox converter actually
produces: 15 buttons, one hat, six axes with levels in 0..4. -/
def wellFormedInput (input : ControllerInput) : Prop :=
  15 ≤ input.buttons.length ∧ 1 ≤ input.hats.length ∧ input.axes.length = 6 ∧
    ∀ a ∈ input.axes,
      a.value = 0 ∨ a.value = 1 ∨ a.value = 2 ∨ a.value = 3 ∨ a.value = 4

instance (input : ControllerInput) : Decidable (wellFormedInput input) := by
  unfold wellFormedInput
  infer_instance

/-! ## radiocontrol.py — constants and the dispatch loop body -/

def SERVO_STEP_SLOW : ℕ := 250
def SERVO_STEP_MIDDLE : ℕ := 500
def SERVO_STEP_HIGH : ℕ := 750
def SERVO_STEP_MAX : ℕ := 1000

def SERVO_INTERVAL : ℚ := 25/1000

/-- One actuator command issued by the dispatch loop.  `pan = true` is the
pan servo, `pan = false` the tilt servo; `left = true` is the left motor,
`left = false` the right motor. -/
inductive Command where
  | ledOn
  | ledOff
  | ledIncrementBrightness
  | ledDecrementBrightness
  | servoMove (pan : Bool) (step : ℕ) (interval : ℚ) (clockwise : Bool)
  | servoStop (pan : Bool)
  | servoInitial (pan : Bool)
  | motorMove (left : Bool) (dutycycle : ℚ) (forward : Bool)
  | motorStop (left : Bool)
deriving DecidableEq

/-- Does the command address a drive motor? -/
def Command.isMotorCommand : Command → Bool
  | .motorMove _ _ _ => true
  | .motorStop _ => true
  | _ => false

/-- `run_servo`: map a speed level to a `move` with the configured step
sizes; no command for level 0 (the function body has no else branch). -/
def run_servo (pan : Bool) (speed : ℚ) (clockwise : Bool) : List Command :=
  if speed = Speed.Slow then [Command.servoMove pan SERVO_STEP_SLOW SERVO_INTERVAL clockwise]
  else if speed = Speed.Middle then [Command.servoMove pan SERVO_STEP_MIDDLE SERVO_INTERVAL clockwise]
  else if speed = Speed.High then [Command.servoMove pan SERVO_STEP_HIGH SERVO_INTERVAL clockwise]
  else if speed = Speed.Max then [Command.servoMove pan SERVO_STEP_MAX SERVO_INTERVAL clockwise]
  else []

/-- `get_dutycycle`. -/
def get_dutycycle (speed : ℚ) : ℚ :=
  if speed = Speed.Slow then 25/100
  else if speed = Speed.Middle then 5/10
  else if speed = Speed.High then 75/100
  else if speed = Speed.Max then 1
  else 0

/-- `run_motor_raw`. -/
def run_motor_raw (left : Bool) (dutycycle : ℚ) (forward : Bool) : Command :=
  Command.motorMove left dutycycle forward

/-- `run_motor`. -/
def run_motor (left : Bool) (speed : ℚ) (forward : Bool) : Command :=
  run_motor_raw left (get_dutycycle speed) forward

/-- radiocontrol.py lines 178-191: LED commands of one InputChanged cycle. -/
def ledCommands (input : ControllerInput) : List Command :=
  (if 0 < HatX input then [Command.ledOn]
   else if HatX input < 0 then [Command.ledOff]
   else [])
  ++
  (if 0 < HatY input then [Command.ledIncrementBrightness]
   else if HatY input < 0 then [Command.ledDecrementBrightness]
   else [])

/-- radiocontrol.py lines 193-215: camera servo commands of one cycle. -/
def servoCommands (input : ControllerInput) : List Command :=
  (if (StickRightX input).value = 0 then [Command.servoStop true]
   else run_servo true (StickRightX input).value (!(StickRightX input).positive))
  ++
  (if (StickRightY input).value = 0 then [Command.servoStop false]
   else run_servo false (StickRightY input).value (StickRightY input).positive)
  ++
  (if ButtonStickRight input then [Command.servoInitial true, Command.servoInitial false]
   else [])

/-- radiocontrol.py lines 242-293: general drive from the left stick, by
case on (Y level, X level). -/
def driveCommands (input : ControllerInput) : List Command :=
  if (StickLeftY input).value = 0 ∧ (StickLeftX input).value = 0 then
    [Command.motorStop true, Command.motorStop false]
  else if (StickLeftY input).value ≠ 0 ∧ (StickLeftX input).value = 0 then
    [run_motor true (StickLeftY input).value (!(StickLeftY input).positive),
     run_motor false (StickLeftY input).value (!(StickLeftY input).positive)]
  else if (StickLeftY input).value = 0 ∧ (StickLeftX input).value ≠ 0 then
    (if (StickLeftX input).positive then
      [Command.motorStop false, run_motor true (StickLeftX input).value true]
     else
      [Command.motorStop true, run_motor false (StickLeftX input).value true])
  else
    let dutycycle0 :=
      get_dutycycle (StickLeftY input).value - 15/100 * (StickLeftX input).value
    let dutycycle := if dutycycle0 < 0 then 0 else dutycycle0
    if (StickLeftX input).positive then
      [run_motor true (StickLeftY input).value (!(StickLeftY input).positive),
       run_motor_raw false dutycycle (!(StickLeftY input).positive)]
    else
      [run_motor false (StickLeftY input).value (!(StickLeftY input).positive),
       run_motor_raw true dutycycle (!(StickLeftY input).positive)]

/-- Outcome of one InputChanged cycle of `main`'s dispatch loop:
the actuator commands issued, in program order, and whether the loop's
`break` at the Back+Start check fires. -/
structure CycleResult where
  commands : List Command
  breakLoop : Bool
deriving DecidableEq

/-- radiocontrol.py lines 178-301: the body of the dispatch loop for one
`InputChanged` event.  `fault` is the value read from
`MOTOR_DRIVER_STATE_PIN`; a true read runs `continue`, as do the two
spin-turn branches, so in all three cases neither the general drive nor the
Back+Start shutdown check is reached. -/
def dispatchCycle (fault : Bool) (input : ControllerInput) : CycleResult :=
  let pre := ledCommands input ++ servoCommands input
  if fault then { commands := pre, breakLoop := false }
  else if (TriggerLeft input).value ≠ 0 ∧ (TriggerRight input).value = 0 then
    { commands := pre ++ [run_motor true (TriggerLeft input).value false,
                          run_motor false (TriggerLeft input).value true],
      breakLoop := false }
  else if (TriggerLeft input).value = 0 ∧ (TriggerRight input).value ≠ 0 then
    { commands := pre ++ [run_motor true (TriggerRight input).value true,
                          run_motor false (TriggerRight input).value false],
      breakLoop := false }
  else
    { commands := pre ++ driveCommands input,
      breakLoop := ButtonBack input && ButtonStart input }

/-! ## gpio/led.py — the LED actuator -/

def PWM_RANGE : ℤ := 1000
def BRIGHTNESS_STEP : ℚ := 1/10

/-- LED state: `_current_duty` plus the PWM dutycycle last written to the
pin with `set_PWM_dutycycle` (an integer out of `PWM_RANGE`). -/
structure LEDState where
  current_duty : ℚ
  pwm : ℤ
deriving DecidableEq

/-- `LED.__init__`: `_current_duty` starts at 1; no dutycycle is written. -/
def ledInitial : LEDState := { current_duty := 1, pwm := 0 }

/-- `LED.on`. -/
def led_on (s : LEDState) : LEDState :=
  let d := if s.current_duty = 0 then 1 else s.current_duty
  { current_duty := d, pwm := pyInt (d * PWM_RANGE) }

/-- `LED.off`: writes dutycycle 0, leaves `_current_duty` unchanged. -/
def led_off (s : LEDState) : LEDState := { s with pwm := 0 }

/-- `LED.increment_brightness`. -/
def led_increment_brightness (s : LEDState) : LEDState :=
  let d0 := s.current_duty + BRIGHTNESS_STEP
  let d := if 1 < d0 then 1 else d0
  { current_duty := d, pwm := pyInt (d * PWM_RANGE) }

/-- `LED.decrement_brightness`. -/
def led_decrement_brightness (s : LEDState) : LEDState :=
  let d0 := s.current_duty - BRIGHTNESS_STEP
  let d := if d0 < 0 then 0 else d0
  { current_duty := d, pwm := pyInt (d * PWM_RANGE) }

/-- One public LED call (`on'` stands for the source's `on()`). -/
inductive LEDOp where
  | on'
  | off
  | increment_brightness
  | decrement_brightness
deriving DecidableEq

def applyLED (s : LEDState) : LEDOp → LEDState
  | .on' => led_on s
  | .off => led_off s
  | .increment_brightness => led_increment_brightness s
  | .decrement_brightness => led_decrement_brightness s

/-- The LED state after a sequence of public calls on a fresh `LED`. -/
def runLED (ops : List LEDOp) : LEDState := ops.foldl applyLED ledInitial

/-! ## gpio/motordriver.py — the `Motor` actuator -/

def MOTOR_MAX_DUTYCYCLE : ℤ := 1000

/-- Motor state: the PWM dutycycles last written to the forward and
backward pins. -/
structure MotorState where
  forward_duty : ℤ
  backward_duty : ℤ
deriving DecidableEq

/-- `Motor.stop`: writes 0 to both pins. -/
def motor_stop : MotorState := { forward_duty := 0, backward_duty := 0 }

/-- `Motor.move` with the default `max_dutycycle = 1000`: clamp
`int(1000 * dutycycle)` above at 1000, drive one pin with it and write 0 to
the other. -/
def motor_move (dutycycle : ℚ) (forward : Bool) : MotorState :=
  let d0 := pyInt (MOTOR_MAX_DUTYCYCLE * dutycycle)
  let d := if MOTOR_MAX_DUTYCYCLE < d0 then MOTOR_MAX_DUTYCYCLE else d0
  if forward then { forward_duty := d, backward_duty := 0 }
  else { forward_duty := 0, backward_duty := d }

/-- One public Motor call. -/
inductive MotorOp where
  | move (dutycycle : ℚ) (forward : Bool)
  | stop
deriving DecidableEq

def applyMotor : MotorState → MotorOp → MotorState
  | _, .move dutycycle forward => motor_move dutycycle forward
  | _, .stop => motor_stop

/-- The pin state after a sequence of public calls on a fresh `Motor`
(whose constructor calls `stop()`). -/
def runMotorOps (ops : List MotorOp) : MotorState := ops.foldl applyMotor motor_stop

/-! ## Concrete snapshots used as test inputs -/

/-- 15 unpressed buttons. -/
def noButtons : List Bool :=
  [false, false, false, false, false, false, false, false, false, false,
   false, false, false, false, false]

/-- 15 buttons with Back (10) and Start (11) pressed. -/
def shutdownButtons : List Bool :=
  [false, false, false, false, false, false, false, false, false, false,
   true, true, false, false, false]

/-- Left stick X level 1 positive, Y level 3 positive, everything else
neutral (axis order: LeftX, LeftY, RightX, RightY, TriggerRight,
TriggerLeft). -/
def exInputBlend : ControllerInput :=
  { buttons := noButtons, hats := [(0, 0)],
    axes := [{ positive := true, value := 1 }, { positive := true, value := 3 },
             {}, {}, {}, {}] }

/-- Left trigger at level 2, everything else neutral. -/
def exInputSpin : ControllerInput :=
  { buttons := noButtons, hats := [(0, 0)],
    axes := [{}, {}, {}, {}, {}, { positive := true, value := 2 }] }

/-- Left trigger at level 2 with Back and Start both pressed. -/
def exInputSpinShutdown : ControllerInput :=
  { buttons := shutdownButtons, hats := [(0, 0)],
    axes := [{}, {}, {}, {}, {}, { positive := true, value := 2 }] }

/-- Back and Start pressed, all axes neutral. -/
def exInputShutdown : ControllerInput :=
  { buttons := shutdownButtons, hats := [(0, 0)],
    axes := [{}, {}, {}, {}, {}, {}] }

/-- Nonzero left-stick and trigger levels, used for the fault-interlock
cycle. -/
def exInputFault : ControllerInput :=
  { buttons := noButtons, hats := [(0, 0)],
    axes := [{ positive := true, value := 1 }, { positive := true, value := 3 },
             {}, {}, {}, { positive := true, value := 2 }] }

/-- No device-attach event in the observed window names the expected
controller. -/
def noMatchingAttach (target : String) (observed : List PygameEvent) : Bool :=
  observed.all fun e =>
    match e with
    | PygameEvent.joyDeviceAdded devices => decide (target ∉ devices)
    | PygameEvent.otherEvent => true

/-! ## Helper lemmas -/

theorem clamp_eq_max (q : ℚ) : (if q < 0 then 0 else q) = max 0 q := by
  rcases lt_or_le q 0 with h | h
  · rw [if_pos h, max_eq_left h.le]
  · rw [if_neg (not_lt.mpr h), max_eq_right h]

theorem clamp_above_eq_min (a q : ℤ) : (if a < q then a else q) = min a q := by
  rcases lt_or_le a q with h | h
  · rw [if_pos h, min_eq_left h.le]
  · rw [if_neg (not_lt.mpr h), min_eq_right h]

theorem clamp_above_one_eq_min (q : ℚ) : (if 1 < q then 1 else q) = min 1 q := by
  rcases lt_or_le 1 q with h | h
  · rw [if_pos h, min_eq_left h.le]
  · rw [if_neg (not_lt.mpr h), min_eq_right h]

theorem stick_level_mem_range (v : ℚ) :
    stick_level v = 0 ∨ stick_level v = 1 ∨ stick_level v = 2 ∨ stick_level v = 3 ∨
      stick_level v = 4 := by
  simp only [stick_level, round_stick_value]
  split_ifs <;> simp

theorem stick_level_mono (v1 v2 : ℚ) (h : |v1| ≤ |v2|) :
    stick_level v1 ≤ stick_level v2 := by
  simp only [stick_level, round_stick_value]
  split_ifs <;> norm_num <;> linarith

theorem ledCommands_no_motor (input : ControllerInput) :
    (ledCommands input).all (fun c => !c.isMotorCommand) = true := by
  unfold ledCommands
  split_ifs <;> rfl

theorem servoCommands_no_motor (input : ControllerInput) :
    (servoCommands input).all (fun c => !c.isMotorCommand) = true := by
  unfold servoCommands run_servo
  split_ifs <;> rfl

theorem led_inv_step (s : LEDState) (op : LEDOp)
    (h0 : 0 ≤ s.current_duty) (h1 : s.current_duty ≤ 1) :
    0 ≤ (applyLED s op).current_duty ∧ (applyLED s op).current_duty ≤ 1 := by
  cases op with
  | on' =>
    simp only [applyLED, led_on]
    split_ifs <;> constructor <;> norm_num <;> linarith
  | off => exact ⟨h0, h1⟩
  | increment_brightness =>
    simp only [applyLED, led_increment_brightness, BRIGHTNESS_STEP]
    split_ifs <;> constructor <;> norm_num <;> linarith
  | decrement_brightness =>
    simp only [applyLED, led_decrement_brightness, BRIGHTNESS_STEP]
    split_ifs <;> constructor <;> norm_num <;> linarith

theorem led_inv_run (ops : List LEDOp) (s : LEDState)
    (h0 : 0 ≤ s.current_duty) (h1 : s.current_duty ≤ 1) :
    0 ≤ (ops.foldl applyLED s).current_duty ∧ (ops.foldl applyLED s).current_duty ≤ 1 := by
  induction ops generalizing s with
  | nil => exact ⟨h0, h1⟩
  | cons op rest ih =>
    obtain ⟨g0, g1⟩ := led_inv_step s op h0 h1
    exact ih _ g0 g1

theorem motor_exclusive_run (ops : List MotorOp) (s : MotorState)
    (h : s.forward_duty = 0 ∨ s.backward_duty = 0) :
    (ops.foldl applyMotor s).forward_duty = 0 ∨
      (ops.foldl applyMotor s).backward_duty = 0 := by
  induction ops generalizing s with
  | nil => exact h
  | cons op rest ih =>
    apply ih
    cases op with
    | move d f => cases f <;> simp [applyMotor, motor_move]
    | stop => simp [applyMotor, motor_stop]

theorem search_controller_no_match (target : String) (observed : List PygameEvent)
    (h : noMatchingAttach target observed = true) :
    search_controller target observed = (false, []) := by
  induction observed with
  | nil => rfl
  | cons e rest ih =>
    rw [noMatchingAttach, List.all_cons, Bool.and_eq_true] at h
    obtain ⟨he, hrest⟩ := h
    cases e with
    | joyDeviceAdded devices =>
      rw [search_controller, if_neg (of_decide_eq_true he)]
      exact ih hrest
    | otherEvent =>
      rw [search_controller]
      exact ih hrest

/-! ## Claim theorems -/

/-- C1 (as written, refuted): at left stick Y level 3 (High, positive) and
X level 1 (Slow, positive), the blended-turn branch commands the LEFT
motor at dutycycle 0.75 and the RIGHT motor at 0.60 — the opposite
assignment of the claim, which puts 0.75 on the right motor.  No command
drives the right motor at 0.75 this cycle. -/
theorem blended_turn_claim_fails :
    (dispatchCycle false exInputBlend).commands =
      [Command.servoStop true, Command.servoStop false,
       Command.motorMove true (3/4) false, Command.motorMove false (3/5) false] ∧
    Command.motorMove false (3/4) false ∉ (dispatchCycle false exInputBlend).commands ∧
    Command.motorMove false (3/4) true ∉ (dispatchCycle false exInputBlend).commands := by
  refine ⟨?_, ?_⟩
  · norm_num [dispatchCycle, ledCommands, servoCommands, driveCommands, run_motor,
      run_motor_raw, get_dutycycle, run_servo, HatX, HatY, StickLeftX, StickLeftY,
      StickRightX, StickRightY, TriggerLeft, TriggerRight, ButtonBack, ButtonStart,
      ButtonStickRight, buttonAt, axisAt, List.getD, exInputBlend, Speed.Slow,
      Speed.Middle, Speed.High, Speed.Max, XboxControllerStick.LeftX,
      XboxControllerStick.LeftY, XboxControllerStick.RightX, XboxControllerStick.RightY,
      XboxControllerTrigger.Left, XboxControllerTrigger.Right, XboxControllerButton.Back,
      XboxControllerButton.Start, XboxControllerButton.RightStick, noButtons]
  · norm_num [dispatchCycle, ledCommands, servoCommands, driveCommands, run_motor,
      run_motor_raw, get_dutycycle, run_servo, HatX, HatY, StickLeftX, StickLeftY,
      StickRightX, StickRightY, TriggerLeft, TriggerRight, ButtonBack, ButtonStart,
      ButtonStickRight, buttonAt, axisAt, List.getD, exInputBlend, Speed.Slow,
      Speed.Middle, Speed.High, Speed.Max, XboxControllerStick.LeftX,
      XboxControllerStick.LeftY, XboxControllerStick.RightX, XboxControllerStick.RightY,
      XboxControllerTrigger.Left, XboxControllerTrigger.Right, XboxControllerButton.Back,
      XboxControllerButton.Start, XboxControllerButton.RightStick, noButtons]
    refine ⟨⟨?_, ?_⟩, ?_, ?_⟩ <;> exact fun h => Command.noConfusion h

/-- C1 (amended): in the blended-turn case (both left-stick levels
nonzero, no spin turn, no fault) the motor on the side OPPOSITE X's sign
gets the dutycycle derived from Y's level and the motor on the side
matching X's sign gets max(0, that − 0.15 × X.level), both in the
direction given by Y's sign. -/
theorem blended_turn_commands (input : ControllerInput)
    (hwf : wellFormedInput input)
    (hnospin : ¬((TriggerLeft input).value ≠ 0 ∧ (TriggerRight input).value = 0) ∧
               ¬((TriggerLeft input).value = 0 ∧ (TriggerRight input).value ≠ 0))
    (hx : (StickLeftX input).value ≠ 0) (hy : (StickLeftY input).value ≠ 0) :
    (dispatchCycle false input).commands =
      ledCommands input ++ servoCommands input ++
      (if (StickLeftX input).positive then
        [run_motor true (StickLeftY input).value (!(StickLeftY input).positive),
         run_motor_raw false
           (max 0 (get_dutycycle (StickLeftY input).value -
             15/100 * (StickLeftX input).value))
           (!(StickLeftY input).positive)]
      else
        [run_motor false (StickLeftY input).value (!(StickLeftY input).positive),
         run_motor_raw true
           (max 0 (get_dutycycle (StickLeftY input).value -
             15/100 * (StickLeftX input).value))
           (!(StickLeftY input).positive)]) := by
  obtain ⟨h1, h2⟩ := hnospin
  simp only [dispatchCycle, Bool.false_eq_true, if_false]
  rw [if_neg h1, if_neg h2]
  simp only [driveCommands]
  rw [if_neg (by tauto), if_neg (by tauto), if_neg (by tauto)]
  simp only [clamp_eq_max]

/-- C1 witness: the amended theorem applied to the concrete blended-turn
snapshot (X level 1 positive, Y level 3 positive). -/
theorem blended_turn_commands_witness :
    (dispatchCycle false exInputBlend).commands =
      ledCommands exInputBlend ++ servoCommands exInputBlend ++
      (if (StickLeftX exInputBlend).positive then
        [run_motor true (StickLeftY exInputBlend).value
           (!(StickLeftY exInputBlend).positive),
         run_motor_raw false
           (max 0 (get_dutycycle (StickLeftY exInputBlend).value -
             15/100 * (StickLeftX exInputBlend).value))
           (!(StickLeftY exInputBlend).positive)]
      else
        [run_motor false (StickLeftY exInputBlend).value
           (!(StickLeftY exInputBlend).positive),
         run_motor_raw true
           (max 0 (get_dutycycle (StickLeftY exInputBlend).value -
             15/100 * (StickLeftX exInputBlend).value))
           (!(StickLeftY exInputBlend).positive)]) :=
  blended_turn_commands exInputBlend (by decide) ⟨by decide, by decide⟩
    (by decide) (by decide)

/-- C2: the default stick quantizer always yields a level in {0,..,4}, is
monotone non-decreasing in the absolute stick value, hits the documented
boundary values (0.19 → Zero, 0.2 → Slow, 0.79 → High, 0.8 → Max), and
the sign flag is exactly `value ≥ 0`. -/
theorem stick_quantizer_spec (v v1 v2 : ℚ) (h : |v1| ≤ |v2|) :
    (stick_level v = 0 ∨ stick_level v = 1 ∨ stick_level v = 2 ∨ stick_level v = 3 ∨
      stick_level v = 4) ∧
    stick_level v1 ≤ stick_level v2 ∧
    stick_level (19/100) = 0 ∧ stick_level (2/10) = 1 ∧
    stick_level (79/100) = 3 ∧ stick_level (8/10) = 4 ∧
    (is_positive v = true ↔ 0 ≤ v) := by
  refine ⟨stick_level_mem_range v, stick_level_mono v1 v2 h, ?_, ?_, ?_, ?_, ?_⟩
  · norm_num [stick_level, round_stick_value, abs_of_nonneg]
  · norm_num [stick_level, round_stick_value, abs_of_nonneg]
  · norm_num [stick_level, round_stick_value, abs_of_nonneg]
  · norm_num [stick_level, round_stick_value, abs_of_nonneg]
  · simp [is_positive]

/-- C2 witness: the theorem applied at v = 1/2, v1 = 1/10, v2 = 3/10. -/
theorem stick_quantizer_spec_witness :
    ((stick_level (1/2) = 0 ∨ stick_level (1/2) = 1 ∨ stick_level (1/2) = 2 ∨
        stick_level (1/2) = 3 ∨ stick_level (1/2) = 4) ∧
      stick_level (1/10) ≤ stick_level (3/10) ∧
      stick_level (19/100) = 0 ∧ stick_level (2/10) = 1 ∧
      stick_level (79/100) = 3 ∧ stick_level (8/10) = 4 ∧
      (is_positive (1/2) = true ↔ 0 ≤ (1/2 : ℚ))) :=
  stick_quantizer_spec (1/2) (1/10) (3/10) (by norm_num [abs_of_nonneg])

/-- C3: for a trigger-axis index, the Xbox converter reports sign positive,
quantizes the shifted value 1 + v with the trigger thresholds
{0.2, 0.65, 1.1, 1.6} in half-open buckets with inclusive lower bound and
an unbounded top bucket, and maps v = −1 to Zero and v = 1 to Max. -/
theorem trigger_conversion_spec (i : ℕ) (v : ℚ) (hi : i ∈ xboxTriggerIndices) :
    (xbox_convert i v).positive = true ∧
    (xbox_convert i v).value = ((trigger_level (1 + v) : ℤ) : ℚ) ∧
    (xbox_convert i (-1)).value = 0 ∧
    (xbox_convert i 1).value = 4 ∧
    (1 + v < 2/10 → trigger_level (1 + v) = 0) ∧
    (2/10 ≤ 1 + v ∧ 1 + v < 65/100 → trigger_level (1 + v) = 1) ∧
    (65/100 ≤ 1 + v ∧ 1 + v < 11/10 → trigger_level (1 + v) = 2) ∧
    (11/10 ≤ 1 + v ∧ 1 + v < 16/10 → trigger_level (1 + v) = 3) ∧
    (16/10 ≤ 1 + v → trigger_level (1 + v) = 4) := by
  refine ⟨?_, ?_, ?_, ?_, ?_, ?_, ?_, ?_, ?_⟩
  · simp [xbox_convert, hi]
  · simp [xbox_convert, hi]
  · simp only [xbox_convert, if_pos hi]
    norm_num [trigger_level, round_trigger_value]
  · simp only [xbox_convert, if_pos hi]
    norm_num [trigger_level, round_trigger_value]
  · intro hlt
    simp only [trigger_level, round_trigger_value]
    split_ifs <;> first | rfl | linarith
  · rintro ⟨hge, hlt⟩
    simp only [trigger_level, round_trigger_value]
    split_ifs <;> first | rfl | linarith
  · rintro ⟨hge, hlt⟩
    simp only [trigger_level, round_trigger_value]
    split_ifs <;> first | rfl | linarith
  · rintro ⟨hge, hlt⟩
    simp only [trigger_level, round_trigger_value]
    split_ifs <;> first | rfl | linarith
  · intro hge
    simp only [trigger_level, round_trigger_value]
    split_ifs <;> first | rfl | linarith

/-- C3 witness: the theorem applied to the left-trigger index 5 at v = 0. -/
theorem trigger_conversion_spec_witness :
    (xbox_convert 5 0).positive = true ∧ (xbox_convert 5 (-1)).value = 0 ∧
    (xbox_convert 5 1).value = 4 := by
  have h := trigger_conversion_spec 5 0 (by decide)
  exact ⟨h.1, h.2.2.1, h.2.2.2.1⟩

/-- C4: with exactly one trigger nonzero and no fault, the cycle's command
list is the LED and servo commands followed by exactly the two spin-turn
motor commands — same-side motor backward, opposite-side motor forward,
both at the trigger's level-derived dutycycle — and nothing from the
general drive blending. -/
theorem spin_turn_spec (input : ControllerInput) (hwf : wellFormedInput input)
    (h : ((TriggerLeft input).value ≠ 0 ∧ (TriggerRight input).value = 0) ∨
         ((TriggerLeft input).value = 0 ∧ (TriggerRight input).value ≠ 0)) :
    (dispatchCycle false input).commands =
      ledCommands input ++ servoCommands input ++
      (if (TriggerRight input).value = 0 then
        [run_motor true (TriggerLeft input).value false,
         run_motor false (TriggerLeft input).value true]
       else
        [run_motor true (TriggerRight input).value true,
         run_motor false (TriggerRight input).value false]) := by
  rcases h with ⟨hl, hr⟩ | ⟨hl, hr⟩
  · simp only [dispatchCycle, Bool.false_eq_true, if_false]
    rw [if_pos ⟨hl, hr⟩, if_pos hr]
  · simp only [dispatchCycle, Bool.false_eq_true, if_false]
    rw [if_neg (by tauto), if_pos ⟨hl, hr⟩, if_neg (by tauto)]

/-- C4 witness: the theorem applied to the concrete left-trigger-level-2
snapshot, giving left motor backward and right motor forward at the
Middle dutycycle. -/
theorem spin_turn_spec_witness :
    (dispatchCycle false exInputSpin).commands =
      ledCommands exInputSpin ++ servoCommands exInputSpin ++
      (if (TriggerRight exInputSpin).value = 0 then
        [run_motor true (TriggerLeft exInputSpin).value false,
         run_motor false (TriggerLeft exInputSpin).value true]
       else
        [run_motor true (TriggerRight exInputSpin).value true,
         run_motor false (TriggerRight exInputSpin).value false]) :=
  spin_turn_spec exInputSpin (by decide) (Or.inl ⟨by decide, by decide⟩)

/-- C5 (as written, refuted): on a spin-turn cycle (left trigger level 2,
right trigger 0) with Back and Start both pressed and no fault, the
dispatch loop does NOT end: the spin-turn branch's `continue` skips the
shutdown check, not only the blending step. -/
theorem shutdown_skipped_on_spin_turn :
    ButtonBack exInputSpinShutdown = true ∧ ButtonStart exInputSpinShutdown = true ∧
    (TriggerLeft exInputSpinShutdown).value = 2 ∧
    (TriggerRight exInputSpinShutdown).value = 0 ∧
    (dispatchCycle false exInputSpinShutdown).breakLoop = false := by
  refine ⟨rfl, rfl, rfl, rfl, rfl⟩

/-- C5 (amended): on an InputChanged cycle with Back and Start both
pressed, no fault, and spin-turn arbitration not firing (not exactly one
trigger nonzero), the dispatch loop ends after the cycle; spin-turn
cycles skip the shutdown check along with the blending step. -/
theorem shutdown_check_spec (input : ControllerInput) (hwf : wellFormedInput input)
    (hback : ButtonBack input = true) (hstart : ButtonStart input = true)
    (hnospin : ¬((TriggerLeft input).value ≠ 0 ∧ (TriggerRight input).value = 0) ∧
               ¬((TriggerLeft input).value = 0 ∧ (TriggerRight input).value ≠ 0)) :
    (dispatchCycle false input).breakLoop = true := by
  obtain ⟨h1, h2⟩ := hnospin
  simp only [dispatchCycle, Bool.false_eq_true, if_false]
  rw [if_neg h1, if_neg h2]
  simp [hback, hstart]

/-- C5 witness: the amended theorem applied to the concrete snapshot with
Back and Start pressed and both triggers at zero. -/
theorem shutdown_check_spec_witness :
    (dispatchCycle false exInputShutdown).breakLoop = true :=
  shutdown_check_spec exInputShutdown (by decide) rfl rfl ⟨by decide, by decide⟩

/-- C6: when the fault pin reads true on an InputChanged cycle, the cycle
issues exactly the LED and servo commands computed before the check — no
drive-motor command at all — and the loop's break does not fire, so
dispatch continues with the next event. -/
theorem fault_interlock_spec (input : ControllerInput) (hwf : wellFormedInput input) :
    (dispatchCycle true input).commands = ledCommands input ++ servoCommands input ∧
    (dispatchCycle true input).breakLoop = false ∧
    (dispatchCycle true input).commands.all (fun c => !c.isMotorCommand) = true := by
  refine ⟨rfl, rfl, ?_⟩
  show ((ledCommands input ++ servoCommands input).all fun c => !c.isMotorCommand) = true
  rw [List.all_append, ledCommands_no_motor, servoCommands_no_motor]
  rfl

/-- C6 witness: the theorem applied to a snapshot with nonzero stick and
trigger levels. -/
theorem fault_interlock_spec_witness :
    (dispatchCycle true exInputFault).commands =
      ledCommands exInputFault ++ servoCommands exInputFault ∧
    (dispatchCycle true exInputFault).breakLoop = false ∧
    (dispatchCycle true exInputFault).commands.all (fun c => !c.isMotorCommand) = true :=
  fault_interlock_spec exInputFault (by decide)

/-- C7: if the reconnection search's bounded window holds no device-attach
event naming the expected controller, `_reconnect_controller` leaves
exactly a Quit event in the queue: a Quit is emitted and no Connected
event is. -/
theorem reconnect_timeout_spec (target : String) (observed : List PygameEvent)
    (h : noMatchingAttach target observed = true) :
    reconnect_controller target observed = [ControllerEventType.Quit] ∧
    ControllerEventType.Connected ∉ reconnect_controller target observed ∧
    ControllerEventType.Quit ∈ reconnect_controller target observed := by
  have hs := search_controller_no_match target observed h
  refine ⟨?_, ?_, ?_⟩ <;> simp [reconnect_controller, hs]

/-- C7 witness: the theorem applied to a window holding one non-matching
attach event and one unrelated event. -/
theorem reconnect_timeout_spec_witness :
    reconnect_controller "XboxController"
        [PygameEvent.joyDeviceAdded ["OtherPad"], PygameEvent.otherEvent] =
      [ControllerEventType.Quit] ∧
    ControllerEventType.Connected ∉
      reconnect_controller "XboxController"
        [PygameEvent.joyDeviceAdded ["OtherPad"], PygameEvent.otherEvent] ∧
    ControllerEventType.Quit ∈
      reconnect_controller "XboxController"
        [PygameEvent.joyDeviceAdded ["OtherPad"], PygameEvent.otherEvent] :=
  reconnect_timeout_spec "XboxController"
    [PygameEvent.joyDeviceAdded ["OtherPad"], PygameEvent.otherEvent] (by rfl)

/-- C8: a poll cycle enqueues an InputChanged event carrying the new
snapshot iff the snapshot differs from the last dispatched one (deep
value equality: the three sequences compared element by element, axes
field by field), enqueues nothing on equality, updates the retained
snapshot on emission, and a repeated poll of the same snapshot enqueues
nothing. -/
theorem poll_cycle_spec (last current : ControllerInput) (a b : AxisInput) :
    ((poll_cycle last current).1 = [] ↔ last = current) ∧
    ((poll_cycle last current).1 =
        [{ event := ControllerEventType.InputChanged, controller_input := current }] ↔
      last ≠ current) ∧
    ((poll_cycle last current).2 = if last = current then last else current) ∧
    (poll_cycle (poll_cycle last current).2 current).1 = [] ∧
    (last = current ↔ last.buttons = current.buttons ∧ last.hats = current.hats ∧
        last.axes = current.axes) ∧
    (a = b ↔ a.positive = b.positive ∧ a.value = b.value) := by
  have hext : last = current ↔ last.buttons = current.buttons ∧
      last.hats = current.hats ∧ last.axes = current.axes := by
    cases last; cases current; simp
  have haxis : a = b ↔ a.positive = b.positive ∧ a.value = b.value := by
    cases a; cases b; simp
  by_cases h : last = current
  · subst h
    refine ⟨by simp [poll_cycle], by simp [poll_cycle], by simp [poll_cycle],
      by simp [poll_cycle], hext, haxis⟩
  · refine ⟨?_, ?_, ?_, ?_, hext, haxis⟩
    · simp [poll_cycle, h]
    · simp [poll_cycle, h]
    · simp [poll_cycle, h]
    · simp [poll_cycle, h]

/-- C9: starting from a fresh LED, the brightness fraction stays in [0,1]
under every sequence of on/off/increment/decrement calls; increment and
decrement move it by the fixed 0.1 step clamped at the bounds; and `on()`
on a state whose brightness reached 0 restores full brightness, writing
the full PWM range. -/
theorem led_brightness_spec (ops : List LEDOp) (s : LEDState)
    (hzero : s.current_duty = 0) :
    (0 ≤ (runLED ops).current_duty ∧ (runLED ops).current_duty ≤ 1) ∧
    (∀ t : LEDState,
      (led_increment_brightness t).current_duty =
        min 1 (t.current_duty + BRIGHTNESS_STEP) ∧
      (led_decrement_brightness t).current_duty =
        max 0 (t.current_duty - BRIGHTNESS_STEP)) ∧
    (led_on s).current_duty = 1 ∧ (led_on s).pwm = PWM_RANGE := by
  refine ⟨led_inv_run ops ledInitial (by norm_num [ledInitial])
    (by norm_num [ledInitial]), ?_, ?_, ?_⟩
  · intro t
    constructor
    · simp only [led_increment_brightness]
      exact clamp_above_one_eq_min _
    · simp only [led_decrement_brightness]
      exact clamp_eq_max _
  · simp [led_on, hzero]
  · simp [led_on, hzero, pyInt, PWM_RANGE]

/-- C9 witness: the theorem applied to the call sequence
[decrement, on] from a state at brightness 0. -/
theorem led_brightness_spec_witness :
    (0 ≤ (runLED [LEDOp.decrement_brightness, LEDOp.on']).current_duty ∧
      (runLED [LEDOp.decrement_brightness, LEDOp.on']).current_duty ≤ 1) ∧
    (∀ t : LEDState,
      (led_increment_brightness t).current_duty =
        min 1 (t.current_duty + BRIGHTNESS_STEP) ∧
      (led_decrement_brightness t).current_duty =
        max 0 (t.current_duty - BRIGHTNESS_STEP)) ∧
    (led_on { current_duty := 0, pwm := 0 }).current_duty = 1 ∧
    (led_on { current_duty := 0, pwm := 0 }).pwm = PWM_RANGE :=
  led_brightness_spec [LEDOp.decrement_brightness, LEDOp.on']
    { current_duty := 0, pwm := 0 } rfl

/-- C10: after any sequence of `move`/`stop` calls on a fresh Motor at
least one direction pin carries PWM duty 0; `move` with forward = true
writes 0 to the backward pin and the clamped duty to the forward pin,
`move` with forward = false does the reverse, and `stop` writes 0 to
both. -/
theorem motor_pins_spec (ops : List MotorOp) (d : ℚ) :
    ((runMotorOps ops).forward_duty = 0 ∨ (runMotorOps ops).backward_duty = 0) ∧
    (motor_move d true).backward_duty = 0 ∧
    (motor_move d true).forward_duty =
      min MOTOR_MAX_DUTYCYCLE (pyInt (MOTOR_MAX_DUTYCYCLE * d)) ∧
    (motor_move d false).forward_duty = 0 ∧
    (motor_move d false).backward_duty =
      min MOTOR_MAX_DUTYCYCLE (pyInt (MOTOR_MAX_DUTYCYCLE * d)) ∧
    motor_stop.forward_duty = 0 ∧ motor_stop.backward_duty = 0 := by
  refine ⟨motor_exclusive_run ops motor_stop (Or.inl rfl), ?_, ?_, ?_, ?_, rfl, rfl⟩
  · rfl
  · simp only [motor_move]
    exact clamp_above_eq_min _ _
  · rfl
  · simp only [motor_move]
    exact clamp_above_eq_min _ _

end PiRC
